import Mathlib

/-!
Shallow embedding of `hextant_python_debugger/__init__.py`, a Blender add-on
that installs the `debugpy` package and starts/stops a remote debug server.

Modelling conventions:
* Python values stored in a workspace custom property are modelled by `PyVal`
  with Python truthiness `truthy`.
* The single per-workspace key `"auto_start_debugpy"` is modelled as an
  `Option PyVal` slot (`none` = key absent).
* External calls that may raise (`subprocess.call`, `importlib.import_module`,
  `debugpy.listen`, `workspace.remove`) are parameters of type
  `Except String _`: `.error e` means the call raised exception message `e`,
  `.ok v` a normal return (for `subprocess.call`, `v` is the exit code, which
  the Python source ignores).
* Each operator's `execute` is a function from its inputs and the outcomes of
  its external calls to an `Except String` result: a `.error` result would
  mean an exception escaped `execute` into the host; `.ok` carries the traced
  subprocess invocations, the `self.report` notifications issued, and the
  returned status set.
-/

/-- A Python value that can live in a Blender ID custom property slot. -/
inductive PyVal
  | bool (b : Bool)
  | int (n : Int)
  | str (s : String)
  deriving DecidableEq, Repr

/-- Python truthiness of a `PyVal`. -/
def truthy : PyVal → Bool
  | .bool b => b
  | .int n => n != 0
  | .str s => s != ""

/-- Python `repr`-style text used by f-string interpolation of `not current`
(always a `bool` there, printed `True` / `False`). -/
def pyBoolStr (b : Bool) : String :=
  if b then "True" else "False"

/-- Report level passed to `Operator.report` (`{'INFO'}`, `{'WARNING'}`, `{'ERROR'}`). -/
inductive Level
  | INFO
  | WARNING
  | ERROR
  deriving DecidableEq, Repr

/-- One `self.report({level}, msg)` user notification. -/
structure Report where
  level : Level
  msg : String
  deriving DecidableEq, Repr

/-- The status set an operator `execute` returns (`{'FINISHED'}`, `{'CANCELLED'}`, ...). -/
inductive Status
  | FINISHED
  | CANCELLED
  deriving DecidableEq, Repr

/-- Number of non-`INFO` (warning or error) notifications in a report list. -/
def errWarnCount (rs : List Report) : Nat :=
  (rs.filter (fun r => r.level != Level.INFO)).length

/-- `is_blender_debug_mode` (line 141): `any(arg in sys.argv for arg in ('--debug', '--debug-all'))`. -/
def is_blender_debug_mode (argv : List String) : Bool :=
  (["--debug", "--debug-all"] : List String).any (fun arg => argv.contains arg)

/-- `WORKSPACE_OT_toggle_debugpy.execute` (lines 239-249), acting on the
`"auto_start_debugpy"` workspace slot. The source reads
`current = ws.get("auto_start_debugpy", False)`, stores
`ws["auto_start_debugpy"] = not current`, then deletes the key when `current`
was truthy, and reports one INFO line. -/
def WORKSPACE_OT_toggle_debugpy_execute (slot : Option PyVal) :
    Option PyVal × List Report × Status :=
  let current := slot.getD (PyVal.bool false)
  let slot1 : Option PyVal := some (PyVal.bool (! truthy current))
  let slot2 := if truthy current then none else slot1
  (slot2,
   [⟨Level.INFO, "Auto Start debugpy set to " ++ pyBoolStr (! truthy current)⟩],
   Status.FINISHED)

/-- Effective value of the persisted auto-start flag: read with absent treated
as `False` (`ws.get("auto_start_debugpy", False)` truthiness). -/
def readAutoStart (slot : Option PyVal) : Bool :=
  truthy (slot.getD (PyVal.bool false))

/-- `debugpy_load_handler` (lines 290-295): returns whether the handler invokes
`bpy.ops.script.start_debug_server()` (it does nothing else observable besides
the popup issued together with that invocation). The condition in the source
is `is_blender_debug_mode() or (ws.get("auto_start_debugpy") and ws["auto_start_debugpy"])`;
`ws.get` with no default returns `None` when the key is absent. -/
def debugpy_load_handler (argv : List String) (slot : Option PyVal) : Bool :=
  is_blender_debug_mode argv ||
    (match slot with
     | none => false
     | some v => truthy v && truthy v)

/-- The declared shape of a Blender `IntProperty`. -/
structure IntPropertyDef where
  default : Int
  min : Int
  max : Int
  deriving DecidableEq, Repr

/-- `DebugPythonPreferences.port` (lines 54-56):
`IntProperty(name="Server Port", default=5678, min=1024, max=65535, ...)`. -/
def DebugPythonPreferences_port : IntPropertyDef :=
  { default := 5678, min := 1024, max := 65535 }

/-- Host behaviour of an `IntProperty`: Blender clamps every assigned value
into `[min, max]`, so the stored value is always the clamped one. -/
def IntPropertyDef.clampValue (p : IntPropertyDef) (v : Int) : Int :=
  Max.max p.min (Min.min p.max v)

/-- One `subprocess.call([exe, *args])` invocation attempted by an operator. -/
structure Call where
  exe : String
  args : List String
  deriving DecidableEq, Repr

/-- Result of an operator `execute` that may spawn subprocesses. -/
structure ExecResult where
  calls : List Call
  reports : List Report
  status : Status
  deriving DecidableEq, Repr

/-- Outcomes of the two `subprocess.call` invocations of `InstallDebugpy.execute`
(`.error e` = the call raised; `.ok n` = it returned exit code `n`). -/
structure InstallOutcomes where
  ensurepip : Except String Int
  pipInstall : Except String Int
  deriving Repr

/-- `InstallDebugpy.execute` (lines 80-106). `python` stands for the value of
`os.path.abspath(sys.executable)` computed at line 81. The cursor_set calls
touch only the UI and are not modelled; both `subprocess.call`s sit in a
`try/except Exception` that reports one ERROR and returns `{'FINISHED'}`. -/
def InstallDebugpy_execute (python : String) (o : InstallOutcomes) :
    Except String ExecResult :=
  let r0 : List Report := [⟨Level.INFO, "Installing \x27debugpy\x27 package."⟩]
  let ensurepipCall : Call := ⟨python, ["-m", "ensurepip"]⟩
  match o.ensurepip with
  | .error _ =>
      .ok ⟨[ensurepipCall],
           r0 ++ [⟨Level.ERROR, "Failed to verify \x27pip\x27 package manager installation."⟩],
           Status.FINISHED⟩
  | .ok _ =>
      let pipCall : Call := ⟨python, ["-m", "pip", "install", "debugpy"]⟩
      match o.pipInstall with
      | .error _ =>
          .ok ⟨[ensurepipCall, pipCall],
               r0 ++ [⟨Level.ERROR, "Failed to install \x27debugpy\x27 package."⟩],
               Status.FINISHED⟩
      | .ok _ =>
          .ok ⟨[ensurepipCall, pipCall],
               r0 ++ [⟨Level.INFO, "Successfully installed \x27debugpy\x27 package."⟩],
               Status.FINISHED⟩

/-- `UninstallDebugpy.execute` (lines 115-130): a single
`subprocess.call([python, "-m", "pip", "uninstall", "debugpy", "--yes"])`
in a `try/except Exception`. -/
def UninstallDebugpy_execute (python : String) (pipUninstall : Except String Int) :
    Except String ExecResult :=
  let r0 : List Report := [⟨Level.INFO, "Uninstalling \x27debugpy\x27 package."⟩]
  let pipCall : Call := ⟨python, ["-m", "pip", "uninstall", "debugpy", "--yes"]⟩
  match pipUninstall with
  | .error _ =>
      .ok ⟨[pipCall],
           r0 ++ [⟨Level.ERROR, "Failed to uninstall \x27debugpy\x27 package."⟩],
           Status.FINISHED⟩
  | .ok _ =>
      .ok ⟨[pipCall],
           r0 ++ [⟨Level.INFO, "Successfully uninstalled \x27debugpy\x27 package."⟩],
           Status.FINISHED⟩

/-- State touched by `StartDebugServer.execute`: the module-level `debugpy`
global (`debugpyLoaded` = `debugpy is not None`) and `DEBUGPY_LISTENING`. -/
structure StartState where
  debugpyLoaded : Bool
  listening : Bool
  deriving DecidableEq, Repr

/-- Outcomes of the external calls of `StartDebugServer.execute`:
`importlib.import_module('debugpy')` and `debugpy.listen(port)`. -/
structure StartOutcomes where
  importDebugpy : Except String Unit
  listen : Except String Unit
  deriving Repr

/-- Result of `StartDebugServer.execute`: final state, the ports passed to
`debugpy.listen`, the notifications, and the returned status. -/
structure StartResult where
  st : StartState
  listenCalls : List Int
  reports : List Report
  status : Status
  deriving DecidableEq, Repr

/-- The ERROR message of the import-failure handler in both
`StartDebugServer.execute` (lines 167-168) and `StopDebugServer.execute`
(lines 216-217). -/
def importFailMsg : String :=
  "Failed to import debugpy! " ++
    "Verify that debugpy has been installed from the add-on\x27s preferences."

/-- Lines 178-190 of `StartDebugServer.execute`: call `debugpy.listen(port)`;
on success set `DEBUGPY_LISTENING = True` and report INFO; on an exception
report one WARNING naming the port and return (the assignment to
`DEBUGPY_LISTENING` is after `listen` in the `try`, so it does not run). -/
def startListenPart (port : Int) (st : StartState) (listen : Except String Unit) :
    StartResult :=
  match listen with
  | .ok _ =>
      ⟨{ st with listening := true }, [port],
       [⟨Level.INFO, "Remote python debugger started on port " ++ toString port ++ "."⟩],
       Status.FINISHED⟩
  | .error e =>
      ⟨st, [port],
       [⟨Level.WARNING,
         "Remote python debugger failed to start (or already started) on port " ++
           toString port ++ " : " ++ e⟩],
       Status.FINISHED⟩

/-- `StartDebugServer.execute` (lines 157-190). `port` is `addon_prefs.port`
(line 176). The import step (lines 162-171) runs only when the `debugpy`
global is still `None`; its bare `except:` reports one ERROR and returns
`{'FINISHED'}`. -/
def StartDebugServer_execute (port : Int) (st : StartState) (o : StartOutcomes) :
    Except String StartResult :=
  if st.debugpyLoaded then
    .ok (startListenPart port st o.listen)
  else
    match o.importDebugpy with
    | .error _ =>
        .ok ⟨st, [], [⟨Level.ERROR, importFailMsg⟩], Status.FINISHED⟩
    | .ok _ =>
        .ok (startListenPart port { st with debugpyLoaded := true } o.listen)

/-- State touched by `StopDebugServer.execute`: the `debugpy` global,
`DEBUGPY_LISTENING`, and the workspace `"auto_start_debugpy"` slot. -/
structure StopState where
  debugpyLoaded : Bool
  listening : Bool
  wsFlag : Option PyVal
  deriving DecidableEq, Repr

/-- Outcomes of the external calls of `StopDebugServer.execute`:
`importlib.import_module('debugpy')` and
`bpy.context.workspace.remove("auto_start_debugpy")`. -/
structure StopOutcomes where
  importDebugpy : Except String Unit
  removeKey : Except String Unit
  deriving Repr

/-- Result of `StopDebugServer.execute`. -/
structure StopResult where
  st : StopState
  reports : List Report
  status : Status
  deriving DecidableEq, Repr

/-- Lines 222-232 of `StopDebugServer.execute`: inside the `try`,
`DEBUGPY_LISTENING = False` runs first, then
`bpy.context.workspace.remove("auto_start_debugpy")`; a raised exception is
reported as one WARNING. The remove call either deletes the key or raises
leaving it untouched; it never stores a value. -/
def stopRemovePart (st : StopState) (removeKey : Except String Unit) : StopResult :=
  let st1 := { st with listening := false }
  match removeKey with
  | .ok _ =>
      ⟨{ st1 with wsFlag := none },
       [⟨Level.INFO, "Remote python debugger stopped."⟩], Status.FINISHED⟩
  | .error e =>
      ⟨st1,
       [⟨Level.WARNING,
         "Auto start debugger on this file is removed, but we can\x27t stop debugger: " ++ e⟩],
       Status.FINISHED⟩

/-- `StopDebugServer.execute` (lines 205-232), with the same import step as
`StartDebugServer.execute`. -/
def StopDebugServer_execute (st : StopState) (o : StopOutcomes) :
    Except String StopResult :=
  if st.debugpyLoaded then
    .ok (stopRemovePart st o.removeKey)
  else
    match o.importDebugpy with
    | .error _ =>
        .ok ⟨st, [⟨Level.ERROR, importFailMsg⟩], Status.FINISHED⟩
    | .ok _ =>
        .ok (stopRemovePart { st with debugpyLoaded := true } o.removeKey)

/-- The classes defined by the add-on module. -/
inductive PluginClass
  | DebugPythonPreferences
  | InstallDebugpy
  | UninstallDebugpy
  | StartDebugServer
  | StopDebugServer
  | WORKSPACE_OT_toggle_debugpy
  | WORKSPACE_PT_DEBUGPY_Panel
  deriving DecidableEq, Repr

/-- `_classes` (lines 301-304): the tuple passed to
`bpy.utils.register_classes_factory`. In the source `StopDebugServer` is
commented out of this tuple. -/
def _classes : List PluginClass :=
  [PluginClass.DebugPythonPreferences, PluginClass.InstallDebugpy,
   PluginClass.UninstallDebugpy, PluginClass.StartDebugServer,
   PluginClass.WORKSPACE_OT_toggle_debugpy, PluginClass.WORKSPACE_PT_DEBUGPY_Panel]

/-- Handlers the add-on can append to `bpy.app.handlers.load_post`. -/
inductive HandlerId
  | debugpy_load_handler
  deriving DecidableEq, Repr

/-- Menu-entry draw functions of the add-on. -/
inductive MenuEntry
  | start_remote_debugger_menu
  | stop_remote_debugger_menu
  deriving DecidableEq, Repr

/-- The host registration state the add-on's `register` manipulates. -/
structure HostState where
  registered : List PluginClass
  systemMenu : List MenuEntry
  load_post : List HandlerId
  deriving DecidableEq, Repr

/-- `register` (lines 308-314): registers every class of `_classes`, prepends
`start_remote_debugger_menu` to the System menu (the stop entry is commented
out), and appends `debugpy_load_handler` to `load_post`. -/
def register (h : HostState) : HostState :=
  { registered := h.registered ++ _classes,
    systemMenu := MenuEntry.start_remote_debugger_menu :: h.systemMenu,
    load_post := h.load_post ++ [HandlerId.debugpy_load_handler] }

/-- The host state before the add-on is registered: none of its classes,
menu entries or handlers are present. -/
def initialHostState : HostState :=
  { registered := [], systemMenu := [], load_post := [] }

/-- The `sys.path` effect of the append/remove pattern used at lines 41-44
(`is_debugpy_installed`), 164-171 (`StartDebugServer.execute`) and 212-220
(`StopDebugServer.execute`): `sys.path.append(site.getusersitepackages())`,
run the body, and in a `finally` block `sys.path.remove(...)` the same string.
Python `list.remove` deletes the first occurrence, modelled by `List.erase`.
The `finally` runs whether the body returned normally or raised
(`bodyRaised`), and the body itself does not touch `sys.path`, so both
branches perform the same append-then-erase. -/
def sysPathEffect (usersite : String) (path : List String) (bodyRaised : Bool) :
    List String :=
  match bodyRaised with
  | true => (path ++ [usersite]).erase usersite
  | false => (path ++ [usersite]).erase usersite

/-- Helper: whether an external-call outcome is a raised exception. -/
def raised {α : Type} : Except String α → Bool
  | .ok _ => false
  | .error _ => true

/-- C1 counterexample: the claim says the stop-server command is registered at
plugin registration time, but `StopDebugServer` is commented out of the
`_classes` tuple, so after `register()` runs on a fresh host it is not among
the registered classes. -/
theorem register_does_not_register_stop_server :
    PluginClass.StopDebugServer ∉ (register initialHostState).registered := by
  decide

/-- C1 (amended): after `register()` runs on a fresh host, the
install-dependency and start-server operator classes are registered (hence
invocable), but the stop-server operator class is not: exactly the classes of
the `_classes` tuple, which omits `StopDebugServer`, are registered. -/
theorem register_registers_install_and_start_but_not_stop :
    (register initialHostState).registered = _classes ∧
    PluginClass.InstallDebugpy ∈ (register initialHostState).registered ∧
    PluginClass.StartDebugServer ∈ (register initialHostState).registered ∧
    PluginClass.StopDebugServer ∉ (register initialHostState).registered := by
  decide

/-- C2: the load-time hook invokes the start-server action iff the host was
started with `--debug` or `--debug-all`, or the persisted per-workspace
`auto_start_debugpy` key is present and truthy; otherwise it invokes
nothing. -/
theorem load_handler_invokes_start_iff (argv : List String) (slot : Option PyVal) :
    debugpy_load_handler argv slot = true ↔
      ("--debug" ∈ argv ∨ "--debug-all" ∈ argv ∨
        ∃ v, slot = some v ∧ truthy v = true) := by
  cases slot with
  | none =>
      simp [debugpy_load_handler, is_blender_debug_mode]
  | some v =>
      simp [debugpy_load_handler, is_blender_debug_mode]
      tauto

/-- C5: executing the toggle operator negates the effective value of the
persisted auto-start flag (absent read as `False`), and two consecutive
executions restore the original effective value. -/
theorem toggle_negates_auto_start_flag (slot : Option PyVal) :
    readAutoStart (WORKSPACE_OT_toggle_debugpy_execute slot).1 =
        ! readAutoStart slot ∧
    readAutoStart
        (WORKSPACE_OT_toggle_debugpy_execute
          (WORKSPACE_OT_toggle_debugpy_execute slot).1).1 =
      readAutoStart slot := by
  have slot_eq : ∀ s : Option PyVal,
      (WORKSPACE_OT_toggle_debugpy_execute s).1 =
        if readAutoStart s then none else some (PyVal.bool true) := by
    intro s
    cases s with
    | none => rfl
    | some v =>
        cases hb : truthy v <;>
          simp [WORKSPACE_OT_toggle_debugpy_execute, readAutoStart, hb]
  rw [slot_eq, slot_eq]
  cases hb : readAutoStart slot <;> simp [hb, readAutoStart, truthy]

/-- C6: the port preference has minimum 1024, maximum 65535, default 5678
inside that range, and every value the host property can hold (after
clamping) lies in [1024, 65535]. -/
theorem port_preference_bounds :
    DebugPythonPreferences_port.min = 1024 ∧
    DebugPythonPreferences_port.max = 65535 ∧
    DebugPythonPreferences_port.default = 5678 ∧
    DebugPythonPreferences_port.min ≤ DebugPythonPreferences_port.default ∧
    DebugPythonPreferences_port.default ≤ DebugPythonPreferences_port.max ∧
    ∀ v : Int,
      DebugPythonPreferences_port.min ≤ DebugPythonPreferences_port.clampValue v ∧
      DebugPythonPreferences_port.clampValue v ≤ DebugPythonPreferences_port.max := by
  refine ⟨rfl, rfl, rfl, by decide, by decide, ?_⟩
  intro v
  constructor
  · exact le_max_left _ _
  · exact max_le (by decide) (min_le_left _ _)

/-- C3: for every invocation of the install, uninstall, start or stop operator
and every outcome of its external calls (a raised exception or a normal
return), `execute` returns normally (`Except.ok`, i.e. no exception escapes to
the host) with status `{'FINISHED'}`, and the number of non-INFO (warning or
error) notifications is exactly one when an attempted external call raised and
zero otherwise. -/
theorem operators_catch_failures_report_once_and_finish
    (python : String) (io : InstallOutcomes) (pu : Except String Int)
    (port : Int) (sst : StartState) (so : StartOutcomes)
    (tst : StopState) (zo : StopOutcomes) :
    (∃ r : ExecResult, InstallDebugpy_execute python io = Except.ok r ∧
        r.status = Status.FINISHED ∧
        errWarnCount r.reports =
          (if raised io.ensurepip || raised io.pipInstall then 1 else 0)) ∧
    (∃ r : ExecResult, UninstallDebugpy_execute python pu = Except.ok r ∧
        r.status = Status.FINISHED ∧
        errWarnCount r.reports = (if raised pu then 1 else 0)) ∧
    (∃ r : StartResult, StartDebugServer_execute port sst so = Except.ok r ∧
        r.status = Status.FINISHED ∧
        errWarnCount r.reports =
          (if (if sst.debugpyLoaded then raised so.listen
               else raised so.importDebugpy || raised so.listen)
           then 1 else 0)) ∧
    (∃ r : StopResult, StopDebugServer_execute tst zo = Except.ok r ∧
        r.status = Status.FINISHED ∧
        errWarnCount r.reports =
          (if (if tst.debugpyLoaded then raised zo.removeKey
               else raised zo.importDebugpy || raised zo.removeKey)
           then 1 else 0)) := by
  refine ⟨?_, ?_, ?_, ?_⟩
  · obtain ⟨e, p⟩ := io
    cases e <;> cases p <;>
      simp [InstallDebugpy_execute, raised, errWarnCount]
  · cases pu <;> simp [UninstallDebugpy_execute, raised, errWarnCount]
  · obtain ⟨imp, lis⟩ := so
    obtain ⟨dl, li⟩ := sst
    cases dl <;> cases imp <;> cases lis <;>
      simp [StartDebugServer_execute, startListenPart, raised, errWarnCount]
  · obtain ⟨imp, rem⟩ := zo
    obtain ⟨dl, li, wf⟩ := tst
    cases dl <;> cases imp <;> cases rem <;>
      simp [StopDebugServer_execute, stopRemovePart, raised, errWarnCount]

/-- C4 (code bug): when the `pip install debugpy` subprocess runs but exits
with a nonzero status (the install fails without raising), the install
operator issues no error or warning notification and its last notification is
the INFO line claiming success: `subprocess.call`'s exit code is ignored at
line 98, contradicting the intent of the line-100 error report and of the
success message itself. -/
theorem install_reports_success_when_pip_exits_nonzero :
    ∃ r : ExecResult,
      InstallDebugpy_execute "python3" ⟨Except.ok 0, Except.ok 1⟩ = Except.ok r ∧
      errWarnCount r.reports = 0 ∧
      r.reports.getLast? =
        some ⟨Level.INFO, "Successfully installed \x27debugpy\x27 package."⟩ ∧
      r.status = Status.FINISHED := by
  exact ⟨_, rfl, rfl, rfl, rfl⟩

/-- C7: for every outcome of the subprocess calls, the install operator's
spawned commands are exactly `[python, "-m", "ensurepip"]` followed (when
`ensurepip` did not raise) by `[python, "-m", "pip", "install", "debugpy"]`,
and the uninstall operator's are exactly
`[python, "-m", "pip", "uninstall", "debugpy", "--yes"]`, where `python` is
the value of `os.path.abspath(sys.executable)`; no other mechanism is used. -/
theorem install_uninstall_spawn_python_package_manager
    (python : String) (io : InstallOutcomes) (pu : Except String Int) :
    (∃ r : ExecResult, InstallDebugpy_execute python io = Except.ok r ∧
        r.calls =
          (if raised io.ensurepip
           then [({ exe := python, args := ["-m", "ensurepip"] } : Call)]
           else [{ exe := python, args := ["-m", "ensurepip"] },
                 { exe := python, args := ["-m", "pip", "install", "debugpy"] }])) ∧
    (∃ r : ExecResult, UninstallDebugpy_execute python pu = Except.ok r ∧
        r.calls =
          [({ exe := python,
              args := ["-m", "pip", "uninstall", "debugpy", "--yes"] } : Call)]) := by
  constructor
  · obtain ⟨e, p⟩ := io
    cases e <;> cases p <;> simp [InstallDebugpy_execute, raised]
  · cases pu <;> simp [UninstallDebugpy_execute]

/-- C8: provided the import step does not fail (the `debugpy` global is
already set, or the import succeeds), the start operator calls
`debugpy.listen` with exactly the configured port: on success
`DEBUGPY_LISTENING` becomes `True`; on a raised exception `DEBUGPY_LISTENING`
retains its prior value and the sole notification is a WARNING whose text
names that port. -/
theorem start_listen_uses_port_and_sets_listening
    (port : Int) (st : StartState) (o : StartOutcomes)
    (himp : st.debugpyLoaded = true ∨ o.importDebugpy = Except.ok ()) :
    ∃ r : StartResult, StartDebugServer_execute port st o = Except.ok r ∧
      r.listenCalls = [port] ∧
      (o.listen = Except.ok () → r.st.listening = true) ∧
      (∀ e, o.listen = Except.error e →
        r.st.listening = st.listening ∧
        r.reports = [⟨Level.WARNING,
          "Remote python debugger failed to start (or already started) on port " ++
            toString port ++ " : " ++ e⟩]) := by
  obtain ⟨dl, li⟩ := st
  obtain ⟨imp, lis⟩ := o
  cases dl with
  | true =>
      cases lis <;>
        simp [StartDebugServer_execute, startListenPart]
  | false =>
      rcases himp with h | h
      · exact absurd h (by simp)
      · subst h
        cases lis <;>
          simp [StartDebugServer_execute, startListenPart]

/-- Witness for `start_listen_uses_port_and_sets_listening` at concrete
inputs: port 5678, `debugpy` already imported, and a successful listen call
on one side, a raised listen call on the other. -/
theorem start_listen_uses_port_and_sets_listening_witness :
    (∃ r : StartResult,
        StartDebugServer_execute 5678 ⟨true, false⟩ ⟨Except.ok (), Except.ok ()⟩ =
          Except.ok r ∧
        r.listenCalls = [(5678 : Int)] ∧ r.st.listening = true) ∧
    (∃ r : StartResult,
        StartDebugServer_execute 5678 ⟨true, false⟩
            ⟨Except.ok (), Except.error "in use"⟩ = Except.ok r ∧
        r.st.listening = false) := by
  constructor
  · obtain ⟨r, hr, hports, hok, _⟩ :=
      start_listen_uses_port_and_sets_listening 5678 ⟨true, false⟩
        ⟨Except.ok (), Except.ok ()⟩ (Or.inl rfl)
    exact ⟨r, hr, hports, hok rfl⟩
  · obtain ⟨r, hr, _, _, herr⟩ :=
      start_listen_uses_port_and_sets_listening 5678 ⟨true, false⟩
        ⟨Except.ok (), Except.error "in use"⟩ (Or.inl rfl)
    exact ⟨r, hr, (herr "in use" rfl).1⟩

/-- C9 counterexample: when the user site-packages entry is already present in
`sys.path`, the append/remove pattern does not leave `sys.path` equal to its
prior value: `list.remove` deletes the first (pre-existing) occurrence, so the
entry migrates to the end of the list. -/
theorem syspath_not_restored_when_usersite_already_present :
    sysPathEffect "usersite" ["usersite", "scripts"] false ≠
      ["usersite", "scripts"] := by
  decide

/-- C9 (amended): each append/remove site leaves `sys.path` exactly equal to
its prior value when the user site-packages entry was not already present (the
typical case, on the success and the failure path alike); when it was already
present, the entries are preserved only up to permutation: the first
pre-existing occurrence is erased and one copy ends up at the end. -/
theorem syspath_effect_characterization
    (usersite : String) (path : List String) (bodyRaised : Bool) :
    sysPathEffect usersite path bodyRaised =
        (if usersite ∈ path then path.erase usersite ++ [usersite] else path) ∧
    (sysPathEffect usersite path bodyRaised).Perm path := by
  have hmain : sysPathEffect usersite path bodyRaised =
      (if usersite ∈ path then path.erase usersite ++ [usersite] else path) := by
    have hbody : sysPathEffect usersite path bodyRaised =
        (path ++ [usersite]).erase usersite := by
      cases bodyRaised <;> rfl
    rw [hbody]
    by_cases h : usersite ∈ path
    · rw [List.erase_append_left _ h, if_pos h]
    · rw [List.erase_append_right _ h, if_neg h]
      simp
  refine ⟨hmain, ?_⟩
  rw [hmain]
  by_cases h : usersite ∈ path
  · rw [if_pos h]
    exact (List.perm_append_singleton _ _).trans (List.perm_cons_erase h).symm
  · rw [if_neg h]

/-- C10: no operation stores `False` under the `auto_start_debugpy` key:
after the toggle operator the key is absent or holds `True`, and the stop
operator either removes the key or (when the remove call raises) leaves the
slot exactly as it was — it never writes a value. -/
theorem auto_start_key_never_stored_false
    (slot : Option PyVal) (st : StopState) (o : StopOutcomes) :
    ((WORKSPACE_OT_toggle_debugpy_execute slot).1 = none ∨
      (WORKSPACE_OT_toggle_debugpy_execute slot).1 = some (PyVal.bool true)) ∧
    (∃ r : StopResult, StopDebugServer_execute st o = Except.ok r ∧
        (r.st.wsFlag = none ∨ r.st.wsFlag = st.wsFlag)) := by
  constructor
  · cases slot with
    | none => right; rfl
    | some v =>
        cases hb : truthy v
        · right
          simp [WORKSPACE_OT_toggle_debugpy_execute, hb]
        · left
          simp [WORKSPACE_OT_toggle_debugpy_execute, hb]
  · obtain ⟨imp, rem⟩ := o
    obtain ⟨dl, li, wf⟩ := st
    cases dl <;> cases imp <;> cases rem <;>
      simp [StopDebugServer_execute, stopRemovePart]
